import Mathlib

/-
Verification development for the order-confirmation call agent
(src/app/src/components/OrderCallAgent.tsx).

The component is embedded shallowly: the React state hooks become the
fields of an explicit record `AgentState`, the event handlers become pure
functions on that record, and the asynchronous parts (window.setTimeout
callbacks and speech-synthesis `onend` callbacks) become explicit pending
events fired by a labelled step relation.  Delays are modelled as absolute
due times over a `now : Nat` clock (milliseconds); a timer may fire only
when it is the earliest one due.  Speech completion has no fixed duration,
so the speech-end event may fire at any point while an utterance is
pending; `speak` cancels any in-progress utterance before starting a new
one, so at most one speech completion is ever pending.  Timestamps on
transcript entries (ISO strings in the source) are modelled as the value
of the clock when the entry is appended.
-/

namespace OrderCall

inductive Speaker
  | agent
  | customer
  | system
deriving DecidableEq

/-- One line of the on-screen transcript (type ConversationEntry in the
source).  `awaitingResponse` is an optional boolean there, hence
`Option Bool` here. -/
structure ConversationEntry where
  speaker : Speaker
  message : String
  timestamp : Nat
  awaitingResponse : Option Bool
deriving DecidableEq

inductive CallState
  | idle
  | dialing
  | speaking
  | awaiting_response
  | resolved
  | muted
deriving DecidableEq

inductive CallOutcome
  | confirmed
  | rescheduled
  | cancelled
  | needs_support
deriving DecidableEq

inductive OrderStatus
  | pending
  | confirmed
  | requires_followup
  | cancelled
deriving DecidableEq

structure OrderItem where
  name : String
  quantity : Nat
deriving DecidableEq

/-- Modelled from the spec: the `Order` record of src/data/orders.ts, which
is imported by the component but absent from src/; fields as listed in
spec section 3 and as used by the component. -/
structure Order where
  id : String
  customerName : String
  phoneNumber : String
  address : String
  notes : Option String
  items : List OrderItem
  total : Nat
  paymentMethod : String
  deliverySlot : String
  status : OrderStatus
deriving DecidableEq

/-- The order mutations passed to completeCall in the source are closures
over an order; only two shapes occur, defunctionalised here. -/
inductive OrderUpdater
  | setStatus (st : OrderStatus)
  | confirmWithSlot (slot : String)
deriving DecidableEq

def applyUpdater : OrderUpdater → Order → Order
  | OrderUpdater.setStatus st, o => { o with status := st }
  | OrderUpdater.confirmWithSlot slot, o =>
      { o with status := OrderStatus.confirmed, deliverySlot := slot }

/-- A scheduled setTimeout callback: either the body of scheduleAgentLine
(append an agent line, enter speaking, start the utterance) or a delayed
completeCall invocation. -/
inductive TimerAction
  | agentLine (text : String) (awaitingResponse : Option Bool) (markResolved : Bool)
  | complete (outcome : CallOutcome) (upd : OrderUpdater)
deriving DecidableEq

/-- The onEnd callback registered by `speak` inside scheduleAgentLine,
parametrised by the options of the line being spoken. -/
structure PendingSpeech where
  awaitingResponse : Option Bool
  markResolved : Bool
deriving DecidableEq

/-- The React state of the component, plus the pending timers
(timeoutsRef), the pending speech completion, and the clock. -/
structure AgentState where
  orders : List Order
  selectedOrderId : Option String
  conversation : List ConversationEntry
  callState : CallState
  callOutcome : Option CallOutcome
  rescheduleSlot : String
  agentMuted : Bool
  timers : List (Nat × TimerAction)
  speech : Option PendingSpeech
  now : Nat
deriving DecidableEq

/-- orders.find((order) => order.id === selectedOrderId) ?? null. -/
def selectedOrder (s : AgentState) : Option Order :=
  match s.selectedOrderId with
  | none => none
  | some oid => s.orders.find? (fun o => o.id == oid)

/-- Indian digit grouping used by Intl.NumberFormat en-IN, working on the
reversed (least-significant-first) digit list: pairs separated by commas. -/
def pairsRev : List Char → List Char
  | [] => []
  | [a] => [a]
  | [a, b] => [a, b]
  | a :: b :: c :: rest => a :: b :: ',' :: pairsRev (c :: rest)

/-- Reversed-digit Indian grouping: last three digits form one group, the
remainder is grouped in twos. -/
def indianRev : List Char → List Char
  | a :: b :: c :: d :: rest => a :: b :: c :: ',' :: pairsRev (d :: rest)
  | l => l

/-- formatINR: Intl.NumberFormat en-IN, INR, maximumFractionDigits 0. -/
def formatINR (n : Nat) : String :=
  "₹" ++ String.mk (indianRev (Nat.repr n).toList.reverse).reverse

def dialMessage (o : Order) : String :=
  "Dialing " ++ o.phoneNumber ++ "…"

def introMessage (o : Order) : String :=
  "Hello " ++ o.customerName ++
    ", this is the Flipkart order validation desk. I'm calling to confirm your order " ++
    o.id ++ " for " ++ formatINR o.total ++ "."

def itemPhrase (it : OrderItem) : String :=
  Nat.repr it.quantity ++ " " ++ it.name ++ (if it.quantity > 1 then "s" else "")

def itemsMessage (o : Order) : String :=
  "It includes " ++ String.intercalate (", ") (o.items.map itemPhrase) ++
    " with " ++ o.paymentMethod.toLower ++
    ". Is everything correct so we can schedule delivery " ++ o.deliverySlot ++ "?"

inductive ResponseType
  | confirm
  | reschedule
  | cancel
  | query
deriving DecidableEq

def customerLine : ResponseType → String
  | ResponseType.confirm => "Yes, please go ahead."
  | ResponseType.reschedule => "Could we deliver in a different slot?"
  | ResponseType.cancel => "I want to cancel this order."
  | ResponseType.query => "Can you tell me the payment details once more?"

def confirmLine1 : String :=
  "Perfect, I will confirm the order and send you the delivery updates on SMS right away."

def confirmLine2 : String :=
  "Thank you for shopping with Flipkart. Have a great day!"

def rescheduleOfferLine : String :=
  "Sure, I can help with that. I have a few delivery slots available, please pick the one that works best for you."

def cancelLine : String :=
  "I understand. I will cancel the order right away and send a confirmation SMS. Thank you for your time."

def queryMessage (o : Order) : String :=
  "This order is " ++ formatINR o.total ++ " with " ++ o.paymentMethod.toLower ++
    ". Would you like to proceed with the same plan?"

def slotCustomerMessage (slot : String) : String :=
  "Let's move it to " ++ slot ++ "."

def slotAgentMessage (slot : String) : String :=
  "Done, I have rescheduled your delivery to " ++ slot ++
    ". You will receive a confirmation SMS shortly."

def slotThanksLine : String :=
  "Thanks for confirming. Have a great day!"

def escalateMessage : String :=
  "I'll escalate this to a senior support specialist who will call you back within the next hour."

/-- resetCall: clear all pending timeouts, stop speech, clear transcript,
state idle, outcome null, slot empty. -/
def resetCall (s : AgentState) : AgentState :=
  { s with timers := [], speech := none, conversation := [],
           callState := CallState.idle, callOutcome := none, rescheduleSlot := "" }

def addMessage (e : ConversationEntry) (s : AgentState) : AgentState :=
  { s with conversation := s.conversation ++ [e] }

/-- scheduleAgentLine registers a setTimeout; its body is deferred into a
TimerAction.agentLine with an absolute due time. -/
def scheduleAgentLine (text : String) (delay : Nat) (aw : Option Bool) (mr : Bool)
    (s : AgentState) : AgentState :=
  { s with timers := s.timers ++ [(s.now + delay, TimerAction.agentLine text aw mr)] }

def startCall (s : AgentState) : AgentState :=
  match selectedOrder s with
  | none => s
  | some o =>
    let s1 := { resetCall s with callState := CallState.dialing }
    let s2 := addMessage ⟨Speaker.system, dialMessage o, s1.now, none⟩ s1
    let s3 := scheduleAgentLine (introMessage o) 1200 (some false) false s2
    scheduleAgentLine (itemsMessage o) (1200 + 2200) (some true) false s3

def completeCall (outcome : CallOutcome) (upd : OrderUpdater) (s : AgentState) : AgentState :=
  match selectedOrder s with
  | none => s
  | some o =>
    { s with
      orders := s.orders.map (fun ord => if ord.id == o.id then applyUpdater upd ord else ord),
      callOutcome := some outcome,
      callState := CallState.resolved }

def handleCustomerResponse (t : ResponseType) (s : AgentState) : AgentState :=
  match selectedOrder s with
  | none => s
  | some o =>
    let s1 := addMessage ⟨Speaker.customer, customerLine t, s.now, none⟩ s
    match t with
    | ResponseType.confirm =>
      let s2 := scheduleAgentLine confirmLine1 400 (some false) false s1
      let s3 := scheduleAgentLine confirmLine2 2000 (some false) true s2
      { s3 with timers := s3.timers ++
          [(s3.now + 2500,
            TimerAction.complete CallOutcome.confirmed
              (OrderUpdater.setStatus OrderStatus.confirmed))] }
    | ResponseType.reschedule =>
      let s2 := { s1 with callState := CallState.awaiting_response,
                          callOutcome := some CallOutcome.rescheduled,
                          rescheduleSlot := "" }
      scheduleAgentLine rescheduleOfferLine 500 (some true) false s2
    | ResponseType.cancel =>
      let s2 := scheduleAgentLine cancelLine 700 (some false) true s1
      { s2 with timers := s2.timers ++
          [(s2.now + 1400,
            TimerAction.complete CallOutcome.cancelled
              (OrderUpdater.setStatus OrderStatus.cancelled))] }
    | ResponseType.query =>
      scheduleAgentLine (queryMessage o) 700 (some true) false s1

def handleRescheduleSelection (slot : String) (s : AgentState) : AgentState :=
  match selectedOrder s with
  | none => s
  | some _ =>
    let s1 := { s with rescheduleSlot := slot }
    let s2 := addMessage ⟨Speaker.customer, slotCustomerMessage slot, s1.now, none⟩ s1
    let s3 := scheduleAgentLine (slotAgentMessage slot) 500 (some false) false s2
    let s4 := scheduleAgentLine slotThanksLine 2000 (some false) true s3
    { s4 with timers := s4.timers ++
        [(s4.now + 2300,
          TimerAction.complete CallOutcome.rescheduled
            (OrderUpdater.confirmWithSlot slot))] }

def escalateToSupport (s : AgentState) : AgentState :=
  match selectedOrder s with
  | none => s
  | some _ =>
    let s1 := addMessage ⟨Speaker.agent, escalateMessage, s.now, none⟩ s
    completeCall CallOutcome.needs_support
      (OrderUpdater.setStatus OrderStatus.requires_followup) s1

/-- toggleMute: muting stops the utterance and enters muted; unmuting picks
awaiting_response or dialing by whether any transcript line exists. -/
def toggleMute (s : AgentState) : AgentState :=
  if s.agentMuted then
    { s with agentMuted := false,
             callState := if s.conversation.length = 0
               then CallState.dialing else CallState.awaiting_response }
  else
    { s with agentMuted := true, speech := none, callState := CallState.muted }

def callInFlight (s : AgentState) : Bool :=
  match s.callState with
  | CallState.idle => false
  | CallState.resolved => false
  | _ => true

/-- The order-list button onClick: blocked while a call is in flight,
otherwise select the order and reset. -/
def selectOrderOp (oid : String) (s : AgentState) : AgentState :=
  if callInFlight s then s
  else resetCall { s with selectedOrderId := some oid }

/-- Firing the pending timeout at index i. -/
def fireTimerOp (i : Nat) (s : AgentState) : AgentState :=
  match s.timers[i]? with
  | none => s
  | some (d, TimerAction.agentLine text aw mr) =>
    let s1 := { s with timers := s.timers.eraseIdx i, now := d }
    let s2 := addMessage ⟨Speaker.agent, text, d, aw⟩ s1
    { s2 with callState := CallState.speaking, speech := some ⟨aw, mr⟩ }
  | some (d, TimerAction.complete outcome upd) =>
    let s1 := { s with timers := s.timers.eraseIdx i, now := d }
    completeCall outcome upd s1

/-- The onEnd callback of the current utterance. -/
def speechEndOp (s : AgentState) : AgentState :=
  match s.speech with
  | none => s
  | some ps =>
    { s with speech := none,
             callState :=
               if ps.markResolved then CallState.resolved
               else if ps.awaitingResponse = some true then CallState.awaiting_response
               else CallState.speaking }

/-- The events of the system: operator-driven UI actions and environment
events (timeout firings and speech completions). -/
inductive Action
  | selectOrder (oid : String)
  | startCall
  | respond (t : ResponseType)
  | selectSlot (slot : String)
  | escalate
  | toggleMute
  | reset
  | fireTimer (i : Nat)
  | speechEnd
deriving DecidableEq

def Action.isEnv : Action → Bool
  | Action.fireTimer _ => true
  | Action.speechEnd => true
  | _ => false

def applyAction : Action → AgentState → AgentState
  | Action.selectOrder oid, s => selectOrderOp oid s
  | Action.startCall, s => startCall s
  | Action.respond t, s => handleCustomerResponse t s
  | Action.selectSlot slot, s => handleRescheduleSelection slot s
  | Action.escalate, s => escalateToSupport s
  | Action.toggleMute, s => toggleMute s
  | Action.reset, s => resetCall s
  | Action.fireTimer i, s => fireTimerOp i s
  | Action.speechEnd, s => speechEndOp s

def dueOf (s : AgentState) (i : Nat) : Nat :=
  match s.timers[i]? with
  | none => 0
  | some td => td.1

/-- A timeout may fire only when it exists and is the earliest one due. -/
def fireEnabled (s : AgentState) (i : Nat) : Prop :=
  i < s.timers.length ∧ ∀ td ∈ s.timers, dueOf s i ≤ td.1

instance (s : AgentState) (i : Nat) : Decidable (fireEnabled s i) :=
  inferInstanceAs (Decidable (_ ∧ _))

def enabled : Action → AgentState → Prop
  | Action.fireTimer i, s => fireEnabled s i
  | Action.speechEnd, s => s.speech.isSome = true
  | _, _ => True

instance (a : Action) (s : AgentState) : Decidable (enabled a s) :=
  match a with
  | Action.selectOrder _ => inferInstanceAs (Decidable True)
  | Action.startCall => inferInstanceAs (Decidable True)
  | Action.respond _ => inferInstanceAs (Decidable True)
  | Action.selectSlot _ => inferInstanceAs (Decidable True)
  | Action.escalate => inferInstanceAs (Decidable True)
  | Action.toggleMute => inferInstanceAs (Decidable True)
  | Action.reset => inferInstanceAs (Decidable True)
  | Action.fireTimer i => inferInstanceAs (Decidable (fireEnabled s i))
  | Action.speechEnd => inferInstanceAs (Decidable (s.speech.isSome = true))

def Step (a : Action) (s s' : AgentState) : Prop :=
  enabled a s ∧ s' = applyAction a s

def StepsOk : List Action → AgentState → Prop
  | [], _ => True
  | a :: rest, s => enabled a s ∧ StepsOk rest (applyAction a s)

instance instDecStepsOk : (acts : List Action) → (s : AgentState) → Decidable (StepsOk acts s)
  | [], _ => inferInstanceAs (Decidable True)
  | a :: rest, s =>
    have : Decidable (StepsOk rest (applyAction a s)) := instDecStepsOk rest (applyAction a s)
    inferInstanceAs (Decidable (_ ∧ _))

def run (acts : List Action) (s : AgentState) : AgentState :=
  acts.foldl (fun t a => applyAction a t) s

def statesAlong : List Action → AgentState → List AgentState
  | [], s => [s]
  | a :: rest, s => s :: statesAlong rest (applyAction a s)

/-- Initial component state: useState initialisers; the selected order id
is initialOrders[0]?.id ?? null. -/
def initState (os : List Order) : AgentState :=
  { orders := os,
    selectedOrderId := os.head?.map Order.id,
    conversation := [],
    callState := CallState.idle,
    callOutcome := none,
    rescheduleSlot := "",
    agentMuted := false,
    timers := [],
    speech := none,
    now := 0 }

def Reachable (s : AgentState) : Prop :=
  ∃ os acts, StepsOk acts (initState os) ∧ run acts (initState os) = s

/-- A concrete order used to instantiate the theorems below. -/
def demoOrder : Order :=
  { id := "OD1", customerName := "Asha", phoneNumber := "98", address := "MG Road",
    notes := none, items := [⟨"Phone", 1⟩], total := 4, paymentMethod := "COD",
    deliverySlot := "Mon", status := OrderStatus.pending }

/-- Start a call and let both scheduled intro lines fire and finish. -/
def startTrace : List Action :=
  [Action.startCall, Action.fireTimer 0, Action.speechEnd, Action.fireTimer 0, Action.speechEnd]

/-- Pick a reschedule slot and let the two follow-up lines and the delayed
completeCall fire. -/
def slotTrace (slot : String) : List Action :=
  [Action.selectSlot slot, Action.fireTimer 0, Action.speechEnd,
   Action.fireTimer 0, Action.speechEnd, Action.fireTimer 0]

/-- Choose the reschedule response, let the slot-menu line fire and finish,
then run slotTrace. -/
def rescheduleTrace (slot : String) : List Action :=
  Action.respond ResponseType.reschedule :: Action.fireTimer 0 :: Action.speechEnd ::
    slotTrace slot

@[simp] theorem run_nil (s : AgentState) : run [] s = s := rfl

@[simp] theorem run_cons (a : Action) (l : List Action) (s : AgentState) :
    run (a :: l) s = run l (applyAction a s) := rfl

@[simp] theorem stepsOk_nil (s : AgentState) : StepsOk [] s := trivial

@[simp] theorem stepsOk_cons (a : Action) (l : List Action) (s : AgentState) :
    StepsOk (a :: l) s ↔ enabled a s ∧ StepsOk l (applyAction a s) := Iff.rfl

theorem str_append_assoc (a b c : String) : a ++ b ++ c = a ++ (b ++ c) := by
  rcases a with ⟨da⟩
  rcases b with ⟨db⟩
  rcases c with ⟨dc⟩
  show String.mk (da ++ db ++ dc) = String.mk (da ++ (db ++ dc))
  rw [List.append_assoc]

theorem applyUpdater_id (u : OrderUpdater) (o : Order) : (applyUpdater u o).id = o.id := by
  cases u <;> rfl

theorem find?_map_update (oid : String) (u : OrderUpdater) (l : List Order) :
    (l.map (fun ord => if ord.id == oid then applyUpdater u ord else ord)).find?
        (fun x => x.id == oid) =
      (l.find? (fun x => x.id == oid)).map (applyUpdater u) := by
  induction l with
  | nil => rfl
  | cons x xs ih =>
    cases hx : x.id == oid
    · rw [List.map_cons, if_neg (by simp [hx]), List.find?_cons, List.find?_cons]
      simp only [hx, ih]
    · rw [List.map_cons, if_pos (by simp [hx]), List.find?_cons, List.find?_cons,
          applyUpdater_id]
      simp only [hx]
      rfl

theorem selectedOrder_destruct (s : AgentState) (o : Order)
    (h : selectedOrder s = some o) :
    s.selectedOrderId = some o.id ∧ s.orders.find? (fun x => x.id == o.id) = some o := by
  rcases hid : s.selectedOrderId with _ | oid
  · simp [selectedOrder, hid] at h
  · have hfind : s.orders.find? (fun x => x.id == oid) = some o := by
      simpa [selectedOrder, hid] using h
    have hoid : o.id = oid := by
      have h2 := List.find?_some hfind
      simpa using h2
    subst hoid
    exact ⟨rfl, hfind⟩

theorem selectedOrder_eq_of (s t : AgentState)
    (h1 : t.selectedOrderId = s.selectedOrderId) (h2 : t.orders = s.orders) :
    selectedOrder t = selectedOrder s := by
  unfold selectedOrder
  rw [h1, h2]

/-- Environment events (timeout firings and speech completions) are only
enabled when a timer or an utterance is pending; a quiescent state is
untouched by any run of environment events. -/
theorem quiescent_env_fixed (s : AgentState) (hts : s.timers = []) (hsp : s.speech = none)
    (acts : List Action) (henv : acts.all Action.isEnv = true) (hok : StepsOk acts s) :
    run acts s = s := by
  cases acts with
  | nil => rfl
  | cons a rest =>
    exfalso
    have ha : a.isEnv = true := by
      simp only [List.all_cons, Bool.and_eq_true] at henv
      exact henv.1
    cases a with
    | fireTimer i =>
      have hfe : i < s.timers.length ∧ ∀ td ∈ s.timers, dueOf s i ≤ td.1 := hok.1
      rw [hts] at hfe
      exact absurd hfe.1 (by simp)
    | speechEnd =>
      have hs : s.speech.isSome = true := hok.1
      rw [hsp] at hs
      exact absurd hs (by simp)
    | selectOrder oid => simp [Action.isEnv] at ha
    | startCall => simp [Action.isEnv] at ha
    | respond t => simp [Action.isEnv] at ha
    | selectSlot slot => simp [Action.isEnv] at ha
    | escalate => simp [Action.isEnv] at ha
    | toggleMute => simp [Action.isEnv] at ha
    | reset => simp [Action.isEnv] at ha

theorem completeCall_spec (s : AgentState) (o : Order) (oc : CallOutcome) (u : OrderUpdater)
    (hid : s.selectedOrderId = some o.id)
    (hfind : s.orders.find? (fun x => x.id == o.id) = some o) :
    (completeCall oc u s).callOutcome = some oc ∧
    (completeCall oc u s).callState = CallState.resolved ∧
    selectedOrder (completeCall oc u s) = some (applyUpdater u o) := by
  have hsel : selectedOrder s = some o := by simp [selectedOrder, hid, hfind]
  refine ⟨by simp [completeCall, hsel], by simp [completeCall, hsel], ?_⟩
  simp only [completeCall, selectedOrder, hid, hfind]
  rw [find?_map_update o.id u s.orders, hfind]
  rfl

/-- C9: with no selected order, startCall and every customer-response
handler (response branches, slot selection, escalation) return the state
unchanged: transcript, session state, outcome and the order registry are
untouched. -/
theorem no_selection_noop (s : AgentState) (t : ResponseType) (slot : String)
    (h : selectedOrder s = none) :
    startCall s = s ∧ handleCustomerResponse t s = s ∧
    handleRescheduleSelection slot s = s ∧ escalateToSupport s = s := by
  refine ⟨?_, ?_, ?_, ?_⟩ <;>
    simp [startCall, handleCustomerResponse, handleRescheduleSelection, escalateToSupport, h]

theorem no_selection_noop_witness :
    selectedOrder (initState []) = none ∧ startCall (initState []) = initState [] ∧
    escalateToSupport (initState []) = initState [] :=
  ⟨by decide,
   (no_selection_noop (initState []) ResponseType.confirm ("X") (by decide)).1,
   (no_selection_noop (initState []) ResponseType.confirm ("X") (by decide)).2.2.2⟩

/-- C8: while a call is in flight (state neither idle nor resolved),
toggling mute, and toggling it again to unmute, leaves the transcript, the
outcome, the pending timers, the order registry, the selection and the
chosen slot unchanged; only audio (the pending utterance and the muted
flag) is affected. -/
theorem toggleMute_preserves_transcript_outcome (s : AgentState)
    (h1 : s.callState ≠ CallState.idle) (h2 : s.callState ≠ CallState.resolved) :
    (toggleMute s).conversation = s.conversation ∧
    (toggleMute s).callOutcome = s.callOutcome ∧
    (toggleMute s).timers = s.timers ∧
    (toggleMute s).orders = s.orders ∧
    (toggleMute s).selectedOrderId = s.selectedOrderId ∧
    (toggleMute s).rescheduleSlot = s.rescheduleSlot ∧
    (toggleMute (toggleMute s)).conversation = s.conversation ∧
    (toggleMute (toggleMute s)).callOutcome = s.callOutcome ∧
    (toggleMute (toggleMute s)).timers = s.timers ∧
    (toggleMute (toggleMute s)).orders = s.orders := by
  unfold toggleMute
  by_cases hm : s.agentMuted <;> simp [hm]

theorem toggleMute_preserves_witness :
    (run [Action.startCall] (initState [demoOrder])).callState ≠ CallState.idle ∧
    (run [Action.startCall] (initState [demoOrder])).callState ≠ CallState.resolved ∧
    (toggleMute (run [Action.startCall] (initState [demoOrder]))).conversation =
      (run [Action.startCall] (initState [demoOrder])).conversation ∧
    (toggleMute (toggleMute (run [Action.startCall] (initState [demoOrder])))).callOutcome =
      (run [Action.startCall] (initState [demoOrder])).callOutcome :=
  ⟨by decide, by decide,
   (toggleMute_preserves_transcript_outcome _ (by decide) (by decide)).1,
   (toggleMute_preserves_transcript_outcome _ (by decide) (by decide)).2.2.2.2.2.2.2.1⟩

/-- C1 counterexample: a reachable muted session with a non-empty
transcript whose unmute transitions to awaiting_response, not to speaking
as the claim states. -/
def muteTrace : List Action := [Action.startCall, Action.fireTimer 0, Action.toggleMute]

theorem unmute_not_speaking_cx :
    Reachable (run muteTrace (initState [demoOrder])) ∧
    (run muteTrace (initState [demoOrder])).callState = CallState.muted ∧
    (run muteTrace (initState [demoOrder])).agentMuted = true ∧
    (run muteTrace (initState [demoOrder])).conversation.length ≠ 0 ∧
    (applyAction Action.toggleMute (run muteTrace (initState [demoOrder]))).callState =
      CallState.awaiting_response ∧
    (applyAction Action.toggleMute (run muteTrace (initState [demoOrder]))).callState ≠
      CallState.speaking :=
  ⟨⟨[demoOrder], muteTrace, by decide, rfl⟩, by decide, by decide, by decide, by decide,
   by decide⟩

/-- C1 amended: on unmute, a muted session transitions to
awaiting_response when at least one transcript line exists, and to dialing
when the transcript is empty. -/
theorem unmute_goes_by_transcript (s : AgentState)
    (h1 : s.callState = CallState.muted) (h2 : s.agentMuted = true) :
    (toggleMute s).callState =
      (if s.conversation.length = 0 then CallState.dialing else CallState.awaiting_response) := by
  simp [toggleMute, h2]

theorem unmute_goes_by_transcript_witness :
    (run muteTrace (initState [demoOrder])).callState = CallState.muted ∧
    (run muteTrace (initState [demoOrder])).agentMuted = true ∧
    (toggleMute (run muteTrace (initState [demoOrder]))).callState =
      (if (run muteTrace (initState [demoOrder])).conversation.length = 0
        then CallState.dialing else CallState.awaiting_response) :=
  ⟨by decide, by decide, unmute_goes_by_transcript _ (by decide) (by decide)⟩

/-- C6: from any state with a selected order, escalation yields outcome
needs_support, sets the session state to resolved, and mutates the
selected order's status to requires_followup, regardless of the prior
transcript. -/
theorem escalate_resolves_needs_support (s : AgentState) (o : Order)
    (h : selectedOrder s = some o) :
    (escalateToSupport s).callOutcome = some CallOutcome.needs_support ∧
    (escalateToSupport s).callState = CallState.resolved ∧
    selectedOrder (escalateToSupport s) =
      some { o with status := OrderStatus.requires_followup } := by
  obtain ⟨hid, hfind⟩ := selectedOrder_destruct s o h
  simp only [escalateToSupport, h]
  have spec := completeCall_spec (addMessage ⟨Speaker.agent, escalateMessage, s.now, none⟩ s)
    o CallOutcome.needs_support (OrderUpdater.setStatus OrderStatus.requires_followup)
    hid hfind
  exact ⟨spec.1, spec.2.1, spec.2.2⟩

theorem escalate_resolves_witness :
    selectedOrder (run startTrace (initState [demoOrder])) = some demoOrder ∧
    (escalateToSupport (run startTrace (initState [demoOrder]))).callOutcome =
      some CallOutcome.needs_support ∧
    (escalateToSupport (run startTrace (initState [demoOrder]))).callState =
      CallState.resolved :=
  ⟨by decide,
   (escalate_resolves_needs_support _ demoOrder (by decide)).1,
   (escalate_resolves_needs_support _ demoOrder (by decide)).2.1⟩

/-- C7: reset clears the transcript, state, outcome and chosen slot, and
cancels every pending timer and utterance, so that no run of environment
events after the reset can change anything — no line of the old session is
ever appended. -/
theorem reset_clears_and_quiesces (s : AgentState) (acts : List Action)
    (henv : acts.all Action.isEnv = true) (hok : StepsOk acts (resetCall s)) :
    (resetCall s).conversation = [] ∧
    (resetCall s).callState = CallState.idle ∧
    (resetCall s).callOutcome = none ∧
    (resetCall s).rescheduleSlot = "" ∧
    (resetCall s).timers = [] ∧
    (resetCall s).speech = none ∧
    run acts (resetCall s) = resetCall s :=
  ⟨rfl, rfl, rfl, rfl, rfl, rfl,
   quiescent_env_fixed (resetCall s) rfl rfl acts henv hok⟩

theorem reset_clears_witness :
    ([] : List Action).all Action.isEnv = true ∧
    StepsOk [] (resetCall (run [Action.startCall] (initState [demoOrder]))) ∧
    (resetCall (run [Action.startCall] (initState [demoOrder]))).conversation = [] ∧
    run [] (resetCall (run [Action.startCall] (initState [demoOrder]))) =
      resetCall (run [Action.startCall] (initState [demoOrder])) :=
  ⟨rfl, trivial,
   (reset_clears_and_quiesces _ [] rfl trivial).1,
   (reset_clears_and_quiesces _ [] rfl trivial).2.2.2.2.2.2⟩

/-- C3 amended: timer and speech callbacks never create new timers, so a
session in awaiting_response with no pending timer and no pending
utterance is left entirely unchanged by any run of environment events —
it stays in awaiting_response until an explicit operator action; there is
no timeout-based auto-advance. -/
theorem quiescent_awaiting_stays (s : AgentState) (acts : List Action)
    (hst : s.callState = CallState.awaiting_response)
    (hts : s.timers = []) (hsp : s.speech = none)
    (henv : acts.all Action.isEnv = true) (hok : StepsOk acts s) :
    run acts s = s ∧ (run acts s).callState = CallState.awaiting_response := by
  have h := quiescent_env_fixed s hts hsp acts henv hok
  exact ⟨h, by rw [h, hst]⟩

theorem quiescent_awaiting_stays_witness :
    (run startTrace (initState [demoOrder])).callState = CallState.awaiting_response ∧
    (run startTrace (initState [demoOrder])).timers = [] ∧
    (run startTrace (initState [demoOrder])).speech = none ∧
    ([] : List Action).all Action.isEnv = true ∧
    StepsOk [] (run startTrace (initState [demoOrder])) ∧
    run [] (run startTrace (initState [demoOrder])) = run startTrace (initState [demoOrder]) :=
  ⟨by decide, by decide, by decide, rfl, trivial,
   (quiescent_awaiting_stays _ [] (by decide) (by decide) (by decide) rfl trivial).1⟩

/-- C3 counterexample: a reachable session in awaiting_response (right
after the operator chose the confirm response, whose follow-up timers are
still pending) that an enabled timer firing — an environment event, with
no further operator involvement — moves to speaking. -/
def confirmRespTrace : List Action := startTrace ++ [Action.respond ResponseType.confirm]

theorem timer_leaves_awaiting_cx :
    Reachable (run confirmRespTrace (initState [demoOrder])) ∧
    (run confirmRespTrace (initState [demoOrder])).callState = CallState.awaiting_response ∧
    Action.isEnv (Action.fireTimer 0) = true ∧
    Step (Action.fireTimer 0) (run confirmRespTrace (initState [demoOrder]))
      (applyAction (Action.fireTimer 0) (run confirmRespTrace (initState [demoOrder]))) ∧
    (applyAction (Action.fireTimer 0) (run confirmRespTrace (initState [demoOrder]))).callState =
      CallState.speaking :=
  ⟨⟨[demoOrder], confirmRespTrace, by decide, rfl⟩, by decide, rfl, ⟨by decide, rfl⟩,
   by decide⟩

/-- C2 counterexample: a reachable execution in which the outcome becomes
rescheduled while the session is in awaiting_response and no state along
the trace was ever resolved — the outcome is non-null before resolution. -/
def rescheduleRespTrace : List Action := startTrace ++ [Action.respond ResponseType.reschedule]

theorem outcome_before_resolved_cx :
    Reachable (run rescheduleRespTrace (initState [demoOrder])) ∧
    (run rescheduleRespTrace (initState [demoOrder])).callOutcome =
      some CallOutcome.rescheduled ∧
    (run rescheduleRespTrace (initState [demoOrder])).callState =
      CallState.awaiting_response ∧
    (run rescheduleRespTrace (initState [demoOrder])).callState ≠ CallState.resolved ∧
    ∀ t ∈ statesAlong rescheduleRespTrace (initState [demoOrder]),
      t.callState ≠ CallState.resolved :=
  ⟨⟨[demoOrder], rescheduleRespTrace, by decide, rfl⟩, by decide, by decide, by decide,
   by decide⟩

def sysDialEntry (o : Order) (ts : Nat) : ConversationEntry :=
  ⟨Speaker.system, dialMessage o, ts, none⟩

def introEntry (o : Order) (ts : Nat) : ConversationEntry :=
  ⟨Speaker.agent, introMessage o, ts, some false⟩

def itemsEntry (o : Order) (ts : Nat) : ConversationEntry :=
  ⟨Speaker.agent, itemsMessage o, ts, some true⟩

def respondEntry (t : ResponseType) (ts : Nat) : ConversationEntry :=
  ⟨Speaker.customer, customerLine t, ts, none⟩

def offerEntry (ts : Nat) : ConversationEntry :=
  ⟨Speaker.agent, rescheduleOfferLine, ts, some true⟩

def slotCustomerEntry (slot : String) (ts : Nat) : ConversationEntry :=
  ⟨Speaker.customer, slotCustomerMessage slot, ts, none⟩

def slotAgentEntry (slot : String) (ts : Nat) : ConversationEntry :=
  ⟨Speaker.agent, slotAgentMessage slot, ts, some false⟩

def slotThanksEntry (ts : Nat) : ConversationEntry :=
  ⟨Speaker.agent, slotThanksLine, ts, some false⟩

/-- Full symbolic evaluation of the start-call trace: the dial line is
appended synchronously, the two agent lines fire at their due times and
their speech completions leave the session in awaiting_response. -/
theorem run_startTrace (s : AgentState) (o : Order) (h : selectedOrder s = some o) :
    StepsOk startTrace s ∧
    run startTrace s =
      { s with
          conversation := [sysDialEntry o s.now, introEntry o (s.now + 1200), itemsEntry o (s.now + 3400)]
          callState := CallState.awaiting_response
          callOutcome := none
          rescheduleSlot := ""
          timers := []
          speech := none
          now := s.now + 3400 } := by
  constructor
  · simp [startTrace, StepsOk, enabled, fireEnabled, dueOf, applyAction, startCall, h,
          resetCall, addMessage, scheduleAgentLine, fireTimerOp, speechEndOp, List.eraseIdx]
  · simp [startTrace, run, applyAction, startCall, h, resetCall, addMessage,
          scheduleAgentLine, fireTimerOp, speechEndOp, List.eraseIdx,
          sysDialEntry, introEntry, itemsEntry]

/-- Full symbolic evaluation of the slot-selection trace: the customer
line is appended, the slot is recorded, the two follow-up lines fire, and
the delayed completeCall commits the order mutation and resolves. -/
theorem run_slotTrace (s : AgentState) (o : Order) (slot : String)
    (h : selectedOrder s = some o) (hts : s.timers = []) :
    StepsOk (slotTrace slot) s ∧
    run (slotTrace slot) s =
      { s with
          orders := s.orders.map (fun ord => if ord.id == o.id then applyUpdater (OrderUpdater.confirmWithSlot slot) ord else ord)
          conversation := s.conversation ++ [slotCustomerEntry slot s.now, slotAgentEntry slot (s.now + 500), slotThanksEntry (s.now + 2000)]
          callState := CallState.resolved
          callOutcome := some CallOutcome.rescheduled
          rescheduleSlot := slot
          timers := []
          speech := none
          now := s.now + 2300 } ∧
    selectedOrder (run (slotTrace slot) s) =
      some { o with status := OrderStatus.confirmed, deliverySlot := slot } := by
  obtain ⟨hid, hfind⟩ := selectedOrder_destruct s o h
  have hok : StepsOk (slotTrace slot) s := by
    simp [slotTrace, StepsOk, enabled, fireEnabled, dueOf, applyAction,
          handleRescheduleSelection, selectedOrder, hid, hfind, hts, addMessage,
          scheduleAgentLine, fireTimerOp, speechEndOp, completeCall, List.eraseIdx]
  have heq : run (slotTrace slot) s =
      { s with
          orders := s.orders.map (fun ord => if ord.id == o.id then applyUpdater (OrderUpdater.confirmWithSlot slot) ord else ord)
          conversation := s.conversation ++ [slotCustomerEntry slot s.now, slotAgentEntry slot (s.now + 500), slotThanksEntry (s.now + 2000)]
          callState := CallState.resolved
          callOutcome := some CallOutcome.rescheduled
          rescheduleSlot := slot
          timers := []
          speech := none
          now := s.now + 2300 } := by
    simp [slotTrace, run, applyAction, handleRescheduleSelection, selectedOrder, hid, hfind,
          hts, addMessage, scheduleAgentLine, fireTimerOp, speechEndOp, completeCall,
          List.eraseIdx, slotCustomerEntry, slotAgentEntry, slotThanksEntry]
  refine ⟨hok, heq, ?_⟩
  rw [heq]
  simp only [selectedOrder, hid]
  rw [find?_map_update o.id (OrderUpdater.confirmWithSlot slot) s.orders, hfind]
  rfl

/-- Symbolic evaluation of the reschedule-response prefix: the customer
line is appended, outcome becomes rescheduled, state re-enters
awaiting_response, and the slot-offer line fires and completes. -/
theorem run_reschedulePrefix (s : AgentState) (o : Order)
    (h : selectedOrder s = some o) (hts : s.timers = []) :
    StepsOk [Action.respond ResponseType.reschedule, Action.fireTimer 0, Action.speechEnd] s ∧
    run [Action.respond ResponseType.reschedule, Action.fireTimer 0, Action.speechEnd] s =
      { s with
          conversation := s.conversation ++ [respondEntry ResponseType.reschedule s.now, offerEntry (s.now + 500)]
          callState := CallState.awaiting_response
          callOutcome := some CallOutcome.rescheduled
          rescheduleSlot := ""
          timers := []
          speech := none
          now := s.now + 500 } := by
  constructor
  · simp [StepsOk, enabled, fireEnabled, dueOf, applyAction, handleCustomerResponse, h,
          hts, addMessage, scheduleAgentLine, fireTimerOp, speechEndOp, List.eraseIdx]
  · simp [run, applyAction, handleCustomerResponse, h, hts, addMessage, scheduleAgentLine,
          fireTimerOp, speechEndOp, List.eraseIdx, respondEntry, offerEntry]

/-- C4: starting a call with selected order O produces, in order, exactly
a system dialing line, an agent line naming O's id and formatted total
(awaitingResponse false), and an agent line listing items with
awaitingResponse true, after which the session is in awaiting_response. -/
theorem startCall_script_order (s : AgentState) (o : Order) (h : selectedOrder s = some o) :
    StepsOk startTrace s ∧
    (run startTrace s).conversation =
      [sysDialEntry o s.now, introEntry o (s.now + 1200), itemsEntry o (s.now + 3400)] ∧
    (run startTrace s).callState = CallState.awaiting_response ∧
    (introEntry o (s.now + 1200)).awaitingResponse = some false ∧
    (itemsEntry o (s.now + 3400)).awaitingResponse = some true ∧
    (∃ p q, introMessage o = p ++ (o.id ++ q)) ∧
    (∃ p q, introMessage o = p ++ (formatINR o.total ++ q)) := by
  obtain ⟨hok, heq⟩ := run_startTrace s o h
  refine ⟨hok, by rw [heq], by rw [heq], rfl, rfl, ?_, ?_⟩
  · refine ⟨"Hello " ++ o.customerName ++ ", this is the Flipkart order validation desk. I'm calling to confirm your order ", " for " ++ formatINR o.total ++ ".", ?_⟩
    simp [introMessage, str_append_assoc]
  · refine ⟨"Hello " ++ o.customerName ++ ", this is the Flipkart order validation desk. I'm calling to confirm your order " ++ o.id ++ " for ", ".", ?_⟩
    simp [introMessage, str_append_assoc]

theorem startCall_script_order_witness :
    selectedOrder (initState [demoOrder]) = some demoOrder ∧
    StepsOk startTrace (initState [demoOrder]) ∧
    (run startTrace (initState [demoOrder])).callState = CallState.awaiting_response :=
  ⟨by decide, (startCall_script_order _ demoOrder (by decide)).1,
   (startCall_script_order _ demoOrder (by decide)).2.2.1⟩

/-- C5: from an awaiting session with selected order o and no pending
timers, choosing the reschedule response and then picking slot S leaves
the order confirmed with deliverySlot exactly S, outcome rescheduled, and
the session resolved. -/
theorem reschedule_then_slot_commits (s : AgentState) (o : Order) (slot : String)
    (h : selectedOrder s = some o)
    (hst : s.callState = CallState.awaiting_response) (hts : s.timers = []) :
    StepsOk (rescheduleTrace slot) s ∧
    (run (rescheduleTrace slot) s).callOutcome = some CallOutcome.rescheduled ∧
    (run (rescheduleTrace slot) s).callState = CallState.resolved ∧
    (run (rescheduleTrace slot) s).rescheduleSlot = slot ∧
    selectedOrder (run (rescheduleTrace slot) s) =
      some { o with status := OrderStatus.confirmed, deliverySlot := slot } := by
  obtain ⟨hid, hfind⟩ := selectedOrder_destruct s o h
  obtain ⟨hok1, heq1⟩ := run_reschedulePrefix s o h hts
  have h1 : selectedOrder
      (run [Action.respond ResponseType.reschedule, Action.fireTimer 0, Action.speechEnd] s) =
      some o := by
    rw [heq1]
    simp [selectedOrder, hid, hfind]
  have hts1 : (run [Action.respond ResponseType.reschedule, Action.fireTimer 0,
      Action.speechEnd] s).timers = [] := by
    rw [heq1]
  obtain ⟨hok2, heq2, hsel2⟩ := run_slotTrace _ o slot h1 hts1
  have hsplit : run (rescheduleTrace slot) s =
      run (slotTrace slot)
        (run [Action.respond ResponseType.reschedule, Action.fireTimer 0, Action.speechEnd] s) :=
    rfl
  refine ⟨?_, ?_, ?_, ?_, ?_⟩
  · simp only [rescheduleTrace, stepsOk_cons]
    exact ⟨hok1.1, hok1.2.1, hok1.2.2.1, hok2⟩
  · rw [hsplit, heq2]
  · rw [hsplit, heq2]
  · rw [hsplit, heq2]
  · rw [hsplit]
    exact hsel2

theorem reschedule_then_slot_commits_witness :
    selectedOrder (run startTrace (initState [demoOrder])) = some demoOrder ∧
    (run startTrace (initState [demoOrder])).callState = CallState.awaiting_response ∧
    (run startTrace (initState [demoOrder])).timers = [] ∧
    (run (rescheduleTrace ("Sat")) (run startTrace (initState [demoOrder]))).callOutcome =
      some CallOutcome.rescheduled ∧
    selectedOrder (run (rescheduleTrace ("Sat")) (run startTrace (initState [demoOrder]))) =
      some { demoOrder with status := OrderStatus.confirmed, deliverySlot := "Sat" } :=
  ⟨by decide, by decide, by decide,
   (reschedule_then_slot_commits _ demoOrder ("Sat") (by decide) (by decide) (by decide)).2.1,
   (reschedule_then_slot_commits _ demoOrder ("Sat") (by decide) (by decide) (by decide)).2.2.2.2⟩

/-- C10: slot selection is guarded only by the existence of a selected
order — from any session state (idle, speaking or resolved included, and
whatever the outcome), it appends the customer line, records the slot,
leaves state and outcome untouched synchronously, and its scheduled
follow-ups commit the order mutation and resolve the session. -/
theorem slot_selection_unguarded (s : AgentState) (o : Order) (slot : String)
    (h : selectedOrder s = some o) (hts : s.timers = []) :
    (handleRescheduleSelection slot s).conversation =
      s.conversation ++ [slotCustomerEntry slot s.now] ∧
    (handleRescheduleSelection slot s).rescheduleSlot = slot ∧
    (handleRescheduleSelection slot s).callState = s.callState ∧
    (handleRescheduleSelection slot s).callOutcome = s.callOutcome ∧
    StepsOk (slotTrace slot) s ∧
    (run (slotTrace slot) s).callState = CallState.resolved ∧
    (run (slotTrace slot) s).callOutcome = some CallOutcome.rescheduled ∧
    selectedOrder (run (slotTrace slot) s) =
      some { o with status := OrderStatus.confirmed, deliverySlot := slot } := by
  obtain ⟨hok, heq, hsel⟩ := run_slotTrace s o slot h hts
  refine ⟨?_, ?_, ?_, ?_, hok, ?_, ?_, hsel⟩
  · simp [handleRescheduleSelection, h, addMessage, scheduleAgentLine, slotCustomerEntry]
  · simp [handleRescheduleSelection, h, addMessage, scheduleAgentLine]
  · simp [handleRescheduleSelection, h, addMessage, scheduleAgentLine]
  · simp [handleRescheduleSelection, h, addMessage, scheduleAgentLine]
  · rw [heq]
  · rw [heq]

theorem slot_selection_unguarded_witness :
    selectedOrder (initState [demoOrder]) = some demoOrder ∧
    (initState [demoOrder]).timers = [] ∧
    (initState [demoOrder]).callState = CallState.idle ∧
    (initState [demoOrder]).callOutcome = none ∧
    (handleRescheduleSelection ("Sat") (initState [demoOrder])).rescheduleSlot = "Sat" ∧
    selectedOrder (run (slotTrace ("Sat")) (initState [demoOrder])) =
      some { demoOrder with status := OrderStatus.confirmed, deliverySlot := "Sat" } :=
  ⟨by decide, rfl, rfl, rfl,
   (slot_selection_unguarded _ demoOrder ("Sat") (by decide) rfl).2.1,
   (slot_selection_unguarded _ demoOrder ("Sat") (by decide) rfl).2.2.2.2.2.2.2⟩

/-- C2 amended: any step that establishes a new outcome value either sets
an outcome other than rescheduled and resolves the session in the same
step, or sets the outcome rescheduled while the session re-enters
awaiting_response (slot pending) prior to resolution. -/
theorem outcome_set_with_resolution (a : Action) (s s' : AgentState) (v : CallOutcome)
    (hstep : Step a s s') (hv : s'.callOutcome = some v) (hne : s.callOutcome ≠ some v) :
    (v = CallOutcome.rescheduled ∧ s'.callState = CallState.awaiting_response) ∨
    s'.callState = CallState.resolved := by
  obtain ⟨hen, rfl⟩ := hstep
  cases a with
  | selectOrder oid =>
    exfalso
    cases hc : callInFlight s
    · simp [applyAction, selectOrderOp, hc, resetCall] at hv
    · simp [applyAction, selectOrderOp, hc] at hv
      exact hne hv
  | startCall =>
    exfalso
    rcases hsel : selectedOrder s with _ | o
    · simp [applyAction, startCall, hsel] at hv
      exact hne hv
    · simp [applyAction, startCall, hsel, resetCall, addMessage, scheduleAgentLine] at hv
  | respond t =>
    rcases hsel : selectedOrder s with _ | o
    · exfalso
      simp [applyAction, handleCustomerResponse, hsel] at hv
      exact hne hv
    · cases t with
      | confirm =>
        exfalso
        simp [applyAction, handleCustomerResponse, hsel, addMessage, scheduleAgentLine] at hv
        exact hne hv
      | reschedule =>
        left
        simp [applyAction, handleCustomerResponse, hsel, addMessage, scheduleAgentLine] at hv ⊢
        exact hv.symm
      | cancel =>
        exfalso
        simp [applyAction, handleCustomerResponse, hsel, addMessage, scheduleAgentLine] at hv
        exact hne hv
      | query =>
        exfalso
        simp [applyAction, handleCustomerResponse, hsel, addMessage, scheduleAgentLine] at hv
        exact hne hv
  | selectSlot slot =>
    exfalso
    rcases hsel : selectedOrder s with _ | o
    · simp [applyAction, handleRescheduleSelection, hsel] at hv
      exact hne hv
    · simp [applyAction, handleRescheduleSelection, hsel, addMessage, scheduleAgentLine] at hv
      exact hne hv
  | escalate =>
    rcases hsel : selectedOrder s with _ | o
    · exfalso
      simp [applyAction, escalateToSupport, hsel] at hv
      exact hne hv
    · right
      have hsel1 : selectedOrder
          (addMessage ⟨Speaker.agent, escalateMessage, s.now, none⟩ s) = some o := by
        rw [selectedOrder_eq_of s (addMessage ⟨Speaker.agent, escalateMessage, s.now, none⟩ s)
              rfl rfl, hsel]
      simp [applyAction, escalateToSupport, hsel, completeCall, hsel1]
  | toggleMute =>
    exfalso
    cases hm : s.agentMuted <;> simp [applyAction, toggleMute, hm] at hv <;> exact hne hv
  | reset =>
    exfalso
    simp [applyAction, resetCall] at hv
  | fireTimer i =>
    rcases hti : s.timers[i]? with _ | ⟨d, ta⟩
    · exfalso
      simp [applyAction, fireTimerOp, hti] at hv
      exact hne hv
    · cases ta with
      | agentLine text aw mr =>
        exfalso
        simp [applyAction, fireTimerOp, hti, addMessage] at hv
        exact hne hv
      | complete oc u =>
        have hstep2 : applyAction (Action.fireTimer i) s =
            completeCall oc u { s with timers := s.timers.eraseIdx i, now := d } := by
          simp [applyAction, fireTimerOp, hti]
        rw [hstep2] at hv ⊢
        rcases hsel : selectedOrder { s with timers := s.timers.eraseIdx i, now := d }
          with _ | o
        · exfalso
          simp [completeCall, hsel] at hv
          exact hne hv
        · right
          simp [completeCall, hsel]
  | speechEnd =>
    exfalso
    rcases hsp : s.speech with _ | ps <;> simp [applyAction, speechEndOp, hsp] at hv <;>
      exact hne hv

theorem outcome_set_with_resolution_witness :
    Step (Action.respond ResponseType.reschedule) (run startTrace (initState [demoOrder]))
      (applyAction (Action.respond ResponseType.reschedule)
        (run startTrace (initState [demoOrder]))) ∧
    (applyAction (Action.respond ResponseType.reschedule)
      (run startTrace (initState [demoOrder]))).callOutcome = some CallOutcome.rescheduled ∧
    (run startTrace (initState [demoOrder])).callOutcome ≠ some CallOutcome.rescheduled ∧
    ((CallOutcome.rescheduled = CallOutcome.rescheduled ∧
      (applyAction (Action.respond ResponseType.reschedule)
        (run startTrace (initState [demoOrder]))).callState = CallState.awaiting_response) ∨
     (applyAction (Action.respond ResponseType.reschedule)
       (run startTrace (initState [demoOrder]))).callState = CallState.resolved) :=
  ⟨⟨by decide, rfl⟩, by decide, by decide,
   outcome_set_with_resolution _ _ _ _ ⟨by decide, rfl⟩ (by decide) (by decide)⟩

end OrderCall
